import Mathlib

/-
  Shallow embedding of the compatibility-evaluation engine of the
  PC Builder Simulator backend (src/main.py, function
  estimate_power_and_validate, lines 38-103, together with the record
  shape of src/schemas.py).

  Modelling decisions, all taken from the source:
  * A component record is a Python dict with optional keys; the evaluator
    reads exactly the fields below via dict.get, so a record is embedded
    as a structure of Option-valued fields (None / absent key = none).
    Integer fields are Python ints, embedded as Int; string fields as
    String.
  * Python truthiness gates every rule: `comp.get(f)` is truthy iff the
    key is present and its value is nonzero (ints) or nonempty (strings).
    This is embedded by truthyInt / truthyStr.
  * `if cpu:` tests dict truthiness. Per schemas.py a component record
    always carries the mandatory keys name, type and price, so the dict
    is never empty and its truthiness coincides with presence of the
    slot; it is embedded as Option.isSome.
  * `int(total_tdp * 1.5)` multiplies an int by the float 1.5 (exact for
    all realistic magnitudes) and truncates toward zero; it is embedded
    exactly as truncation toward zero of 3*t/2 (requiredHeadroom).
  * The input dict maps category names to records; the evaluator looks up
    the eight fixed category keys (lines 42-49), so the selection is
    embedded as a structure with eight optional slots. Other keys are
    never read and cannot influence the result.
-/

/-- Python truthiness of an optional integer field: present and nonzero. -/
def truthyInt : Option Int → Bool
  | none => false
  | some n => n != 0

/-- Python truthiness of an optional string field: present and nonempty. -/
def truthyStr : Option String → Bool
  | none => false
  | some s => s != ""

/-- Value of an optional integer field (only consulted under a truthiness
guard, where the field is necessarily present). -/
def intOf (o : Option Int) : Int := o.getD 0

/-- Value of an optional string field (only consulted under a truthiness
guard, where the field is necessarily present). -/
def strOf (o : Option String) : String := o.getD ""

/-- Python `int(t * 1.5)`: truncation toward zero of 3t/2. For t >= 0 the
three Lean division conventions agree, so the branch on the sign makes the
definition independent of the Int division convention. -/
def requiredHeadroom (t : Int) : Int :=
  if 0 ≤ t then 3 * t / 2 else -(3 * (-t) / 2)

/-- A catalog component record (schemas.py class Component): the fields the
evaluator reads. All are optional keys of the underlying dict. -/
structure Component where
  socket : Option String := none
  ram_type : Option String := none
  ram_speed : Option Int := none
  tdp : Option Int := none
  psu_wattage : Option Int := none
  gpu_length_mm : Option Int := none
  case_gpu_max_length_mm : Option Int := none
  case_cooler_max_height_mm : Option Int := none
  cooler_tdp_rating : Option Int := none
  cooler_height_mm : Option Int := none
deriving DecidableEq

/-- A build selection: the eight fixed category slots the evaluator looks
up (main.py lines 42-49), each holding at most one component. -/
structure Selection where
  cpu : Option Component := none
  gpu : Option Component := none
  mb : Option Component := none
  ram : Option Component := none
  storage : Option Component := none
  psu : Option Component := none
  pcCase : Option Component := none
  cooler : Option Component := none
deriving DecidableEq

/-- Output record (main.py class CompatibilityResult, lines 32-35). -/
structure CompatibilityResult where
  is_valid : Bool
  issues : List String
  estimated_power_w : Int
deriving DecidableEq

/-! The seven issue messages, verbatim from main.py. -/

def msgSocket : String := "CPU and Motherboard sockets do not match"

def msgRamType : String := "RAM type incompatible with Motherboard"

def msgRamSpeed : String := "RAM speed exceeds motherboard maximum"

/-- The PSU message of line 80 with the computed requirement substituted. -/
def msgPsu (required : Int) : String :=
  "PSU wattage may be insufficient (needs ~" ++ toString required ++ "W)"

def msgGpuLength : String := "GPU may not fit in the case (length)"

def msgCoolerHeight : String := "Cooler may be too tall for the case"

def msgCoolerTdp : String := "Cooler TDP rating may be insufficient for CPU"

/-! The seven rule guards, one per check of main.py lines 61-97. Each takes
exactly the operand slots its Python counterpart reads. -/

/-- Lines 62-63: CPU and Motherboard present, both sockets truthy, unequal. -/
def socketBad (cpu mb : Option Component) : Bool :=
  match cpu, mb with
  | some c, some m =>
      truthyStr c.socket && truthyStr m.socket && (strOf c.socket != strOf m.socket)
  | _, _ => false

/-- Lines 67-68: Motherboard and RAM present, both ram types truthy, unequal. -/
def ramTypeBad (mb ram : Option Component) : Bool :=
  match mb, ram with
  | some m, some r =>
      truthyStr m.ram_type && truthyStr r.ram_type && (strOf m.ram_type != strOf r.ram_type)
  | _, _ => false

/-- Lines 72-73: Motherboard and RAM present, both ram speeds truthy, RAM
speed greater than Motherboard speed. -/
def ramSpeedBad (mb ram : Option Component) : Bool :=
  match mb, ram with
  | some m, some r =>
      truthyInt m.ram_speed && truthyInt r.ram_speed &&
        decide (intOf r.ram_speed > intOf m.ram_speed)
  | _, _ => false

/-- Lines 77-79: PSU present with truthy wattage, wattage below the
required headroom over the running power total. -/
def psuBad (psu : Option Component) (total_tdp : Int) : Bool :=
  match psu with
  | some p =>
      truthyInt p.psu_wattage &&
        decide (intOf p.psu_wattage < requiredHeadroom total_tdp)
  | none => false

/-- Lines 83-85: Case and GPU present, both length fields truthy, GPU
longer than the case maximum. -/
def gpuLengthBad (pcCase gpu : Option Component) : Bool :=
  match pcCase, gpu with
  | some k, some g =>
      truthyInt k.case_gpu_max_length_mm && truthyInt g.gpu_length_mm &&
        decide (intOf g.gpu_length_mm > intOf k.case_gpu_max_length_mm)
  | _, _ => false

/-- Lines 89-91: Case and Cooler present, both height fields truthy,
cooler taller than the case maximum. -/
def coolerHeightBad (pcCase cooler : Option Component) : Bool :=
  match pcCase, cooler with
  | some k, some co =>
      truthyInt k.case_cooler_max_height_mm && truthyInt co.cooler_height_mm &&
        decide (intOf co.cooler_height_mm > intOf k.case_cooler_max_height_mm)
  | _, _ => false

/-- Lines 95-96: Cooler and CPU present, both rating and tdp truthy,
cooler rating below the CPU tdp. -/
def coolerTdpBad (cooler cpu : Option Component) : Bool :=
  match cooler, cpu with
  | some co, some c =>
      truthyInt co.cooler_tdp_rating && truthyInt c.tdp &&
        decide (intOf co.cooler_tdp_rating < intOf c.tdp)
  | _, _ => false

/-! The list of strings each check appends (empty when the guard fails). -/

def socketIssue (cpu mb : Option Component) : List String :=
  if socketBad cpu mb then [msgSocket] else []

def ramTypeIssue (mb ram : Option Component) : List String :=
  if ramTypeBad mb ram then [msgRamType] else []

def ramSpeedIssue (mb ram : Option Component) : List String :=
  if ramSpeedBad mb ram then [msgRamSpeed] else []

def psuIssue (psu : Option Component) (total_tdp : Int) : List String :=
  if psuBad psu total_tdp then [msgPsu (requiredHeadroom total_tdp)] else []

def gpuLengthIssue (pcCase gpu : Option Component) : List String :=
  if gpuLengthBad pcCase gpu then [msgGpuLength] else []

def coolerHeightIssue (pcCase cooler : Option Component) : List String :=
  if coolerHeightBad pcCase cooler then [msgCoolerHeight] else []

def coolerTdpIssue (cooler cpu : Option Component) : List String :=
  if coolerTdpBad cooler cpu then [msgCoolerTdp] else []

/-- Lines 52-55 (per slot): add the tdp of a present component whose tdp
field is truthy. -/
def tdpAdd (c : Option Component) : Int :=
  match c with
  | some x => if truthyInt x.tdp then intOf x.tdp else 0
  | none => 0

/-- The power total of lines 40-59: CPU tdp plus GPU tdp plus a flat 75
when a CPU slot is filled. -/
def powerOf (s : Selection) : Int :=
  tdpAdd s.cpu + tdpAdd s.gpu + (if s.cpu.isSome then 75 else 0)

/-- estimate_power_and_validate (main.py lines 38-103), transcribed
statement by statement: the running power total of lines 40-59, the seven
sequential appends of lines 61-97, and the result record of lines 99-103. -/
def estimate_power_and_validate (components : Selection) : CompatibilityResult :=
  let cpu := components.cpu
  let gpu := components.gpu
  let mb := components.mb
  let ram := components.ram
  let _storage := components.storage
  let psu := components.psu
  let pcCase := components.pcCase
  let cooler := components.cooler
  let total_tdp : Int := 0
  let total_tdp := total_tdp + tdpAdd cpu
  let total_tdp := total_tdp + tdpAdd gpu
  let total_tdp := total_tdp + (if cpu.isSome then 75 else 0)
  let issues : List String := []
  let issues := issues ++ socketIssue cpu mb
  let issues := issues ++ ramTypeIssue mb ram
  let issues := issues ++ ramSpeedIssue mb ram
  let issues := issues ++ psuIssue psu total_tdp
  let issues := issues ++ gpuLengthIssue pcCase gpu
  let issues := issues ++ coolerHeightIssue pcCase cooler
  let issues := issues ++ coolerTdpIssue cooler cpu
  { is_valid := issues.length == 0
    issues := issues
    estimated_power_w := total_tdp }

/-! ### Structural helper lemmas -/

/-- The result record, with the issue list written as the ordered
concatenation of the seven per-rule contributions and the power written
via powerOf. -/
theorem eval_eq (s : Selection) :
    estimate_power_and_validate s =
      { is_valid := (socketIssue s.cpu s.mb ++ ramTypeIssue s.mb s.ram ++
          ramSpeedIssue s.mb s.ram ++ psuIssue s.psu (powerOf s) ++
          gpuLengthIssue s.pcCase s.gpu ++ coolerHeightIssue s.pcCase s.cooler ++
          coolerTdpIssue s.cooler s.cpu).length == 0
        issues := socketIssue s.cpu s.mb ++ ramTypeIssue s.mb s.ram ++
          ramSpeedIssue s.mb s.ram ++ psuIssue s.psu (powerOf s) ++
          gpuLengthIssue s.pcCase s.gpu ++ coolerHeightIssue s.pcCase s.cooler ++
          coolerTdpIssue s.cooler s.cpu
        estimated_power_w := powerOf s } := by
  simp [estimate_power_and_validate, powerOf, List.append_assoc, add_assoc]

theorem power_decomp (s : Selection) :
    (estimate_power_and_validate s).estimated_power_w = powerOf s := by
  rw [eval_eq]

theorem issues_decomp (s : Selection) :
    (estimate_power_and_validate s).issues =
      socketIssue s.cpu s.mb ++ ramTypeIssue s.mb s.ram ++
        ramSpeedIssue s.mb s.ram ++ psuIssue s.psu (powerOf s) ++
        gpuLengthIssue s.pcCase s.gpu ++ coolerHeightIssue s.pcCase s.cooler ++
        coolerTdpIssue s.cooler s.cpu := by
  rw [eval_eq]

theorem mem_guard {b : Bool} {m x : String} :
    x ∈ (if b then [m] else []) ↔ b = true ∧ x = m := by
  cases b <;> simp

/-- Membership in the issue list, characterised rule by rule. -/
theorem mem_issues_iff (s : Selection) (x : String) :
    x ∈ (estimate_power_and_validate s).issues ↔
      (socketBad s.cpu s.mb = true ∧ x = msgSocket) ∨
      (ramTypeBad s.mb s.ram = true ∧ x = msgRamType) ∨
      (ramSpeedBad s.mb s.ram = true ∧ x = msgRamSpeed) ∨
      (psuBad s.psu (powerOf s) = true ∧ x = msgPsu (requiredHeadroom (powerOf s))) ∨
      (gpuLengthBad s.pcCase s.gpu = true ∧ x = msgGpuLength) ∨
      (coolerHeightBad s.pcCase s.cooler = true ∧ x = msgCoolerHeight) ∨
      (coolerTdpBad s.cooler s.cpu = true ∧ x = msgCoolerTdp) := by
  rw [issues_decomp]
  simp only [List.mem_append, socketIssue, ramTypeIssue, ramSpeedIssue, psuIssue,
    gpuLengthIssue, coolerHeightIssue, coolerTdpIssue, mem_guard]
  tauto

/-! ### Facts about the messages -/

theorem msgPsu_head (r : Int) : (msgPsu r).data.head? = some 'P' := rfl

/-- A PSU message never coincides with a message whose first character is
not the letter P. -/
theorem msgPsu_ne {m : String} (hm : m.data.head? ≠ some 'P') (r : Int) :
    msgPsu r ≠ m :=
  fun h => hm (h ▸ msgPsu_head r)

theorem msgPsu_ne_all (r : Int) :
    msgPsu r ≠ msgSocket ∧ msgPsu r ≠ msgRamType ∧ msgPsu r ≠ msgRamSpeed ∧
      msgPsu r ≠ msgGpuLength ∧ msgPsu r ≠ msgCoolerHeight ∧ msgPsu r ≠ msgCoolerTdp :=
  ⟨msgPsu_ne (by decide) r, msgPsu_ne (by decide) r, msgPsu_ne (by decide) r,
   msgPsu_ne (by decide) r, msgPsu_ne (by decide) r, msgPsu_ne (by decide) r⟩

theorem tdpAdd_eq (c : Option Component) :
    tdpAdd c = (match c with
                | some x => x.tdp.getD 0
                | none => 0) := by
  cases c with
  | none => rfl
  | some x =>
    cases ht : x.tdp with
    | none => simp [tdpAdd, truthyInt, ht]
    | some t =>
      rcases eq_or_ne t 0 with rfl | h0
      · simp [tdpAdd, truthyInt, ht]
      · simp [tdpAdd, truthyInt, intOf, ht, h0]

/-- Claim C1: the estimated power is the CPU tdp when present plus the GPU
tdp when present plus a flat 75 when a CPU slot is filled, and 0 when
nothing contributes; it is a pure function of the slots, independent of
any compatibility issue. -/
theorem power_formula (s : Selection) :
    (estimate_power_and_validate s).estimated_power_w =
      (match s.cpu with
       | some c => c.tdp.getD 0
       | none => 0) +
      (match s.gpu with
       | some g => g.tdp.getD 0
       | none => 0) +
      (if s.cpu.isSome then 75 else 0) := by
  rw [power_decomp]
  unfold powerOf
  rw [tdpAdd_eq, tdpAdd_eq]

/-- Claim C4: the empty selection evaluates to a valid result with no
issues and zero estimated power. -/
theorem empty_selection_eval :
    estimate_power_and_validate {} =
      { is_valid := true, issues := [], estimated_power_w := 0 } := by decide

/-- Claim C6: the issue list is exactly the ordered concatenation of the
seven independent per-rule contributions, each a function of its own
operand slots only (the PSU rule additionally of the power total). -/
theorem issues_ordered (s : Selection) :
    (estimate_power_and_validate s).issues =
      socketIssue s.cpu s.mb ++ ramTypeIssue s.mb s.ram ++
        ramSpeedIssue s.mb s.ram ++
        psuIssue s.psu ((estimate_power_and_validate s).estimated_power_w) ++
        gpuLengthIssue s.pcCase s.gpu ++ coolerHeightIssue s.pcCase s.cooler ++
        coolerTdpIssue s.cooler s.cpu := by
  rw [power_decomp, issues_decomp]

/-- Claim C7: the result is valid exactly when the issue list is empty. -/
theorem is_valid_iff_no_issues (s : Selection) :
    (estimate_power_and_validate s).is_valid = true ↔
      (estimate_power_and_validate s).issues = [] := by
  have h : (estimate_power_and_validate s).is_valid =
      ((estimate_power_and_validate s).issues.length == 0) := rfl
  rw [h]
  simp [List.length_eq_zero]

/-- Claim C8 counterexample: a GPU with a negative tdp field produces a
negative estimated power, so the claim as stated fails. -/
theorem power_nonneg_ce :
    (estimate_power_and_validate { gpu := some { tdp := some (-5) } }).estimated_power_w < 0 := by
  decide

theorem tdpAdd_nonneg {c : Option Component}
    (h : ∀ x t, c = some x → x.tdp = some t → 0 ≤ t) : 0 ≤ tdpAdd c := by
  cases c with
  | none => simp [tdpAdd]
  | some x =>
    cases ht : x.tdp with
    | none => simp [tdpAdd, truthyInt, ht]
    | some t =>
      rcases eq_or_ne t 0 with rfl | h0
      · simp [tdpAdd, truthyInt, ht]
      · simpa [tdpAdd, truthyInt, intOf, ht, h0] using h x t rfl ht

/-- Claim C8 (amended): when every present tdp field is non-negative, the
estimated power is non-negative. -/
theorem power_nonneg (s : Selection)
    (hcpu : ∀ x t, s.cpu = some x → x.tdp = some t → 0 ≤ t)
    (hgpu : ∀ x t, s.gpu = some x → x.tdp = some t → 0 ≤ t) :
    0 ≤ (estimate_power_and_validate s).estimated_power_w := by
  rw [power_decomp]
  unfold powerOf
  have h75 : (0:Int) ≤ if s.cpu.isSome then 75 else 0 := by split <;> norm_num
  exact add_nonneg (add_nonneg (tdpAdd_nonneg hcpu) (tdpAdd_nonneg hgpu)) h75

/-- Claim C8 witness: instantiation at a CPU with tdp 65. -/
theorem power_nonneg_witness :
    0 ≤ (estimate_power_and_validate { cpu := some { tdp := some 65 } }).estimated_power_w := by
  apply power_nonneg
  · intro x t hx ht
    cases hx
    simp at ht
    omega
  · intro x t hx ht
    cases hx

/-! ### Field-absence helpers -/

/-- The given string field is absent: the slot is empty or the field of
its component is unset. -/
def noStrField (c : Option Component) (f : Component → Option String) : Prop :=
  ∀ x, c = some x → f x = none

/-- The given integer field is absent: the slot is empty or the field of
its component is unset. -/
def noIntField (c : Option Component) (f : Component → Option Int) : Prop :=
  ∀ x, c = some x → f x = none

theorem noStrField_none (f : Component → Option String) : noStrField none f :=
  fun _ hx => nomatch hx

theorem noIntField_none (f : Component → Option Int) : noIntField none f :=
  fun _ hx => nomatch hx

/-! ### Guards are false when their field is absent -/

theorem socketBad_false_left {a b : Option Component}
    (h : noStrField a Component.socket) : socketBad a b = false := by
  cases a with
  | none => cases b <;> rfl
  | some c =>
    cases b with
    | none => rfl
    | some m => simp [socketBad, truthyStr, h c rfl]

theorem socketBad_false_right {a b : Option Component}
    (h : noStrField b Component.socket) : socketBad a b = false := by
  cases a with
  | none => cases b <;> rfl
  | some c =>
    cases b with
    | none => rfl
    | some m => simp [socketBad, truthyStr, h m rfl]

theorem ramTypeBad_false_left {a b : Option Component}
    (h : noStrField a Component.ram_type) : ramTypeBad a b = false := by
  cases a with
  | none => cases b <;> rfl
  | some m =>
    cases b with
    | none => rfl
    | some r => simp [ramTypeBad, truthyStr, h m rfl]

theorem ramTypeBad_false_right {a b : Option Component}
    (h : noStrField b Component.ram_type) : ramTypeBad a b = false := by
  cases a with
  | none => cases b <;> rfl
  | some m =>
    cases b with
    | none => rfl
    | some r => simp [ramTypeBad, truthyStr, h r rfl]

theorem ramSpeedBad_false_left {a b : Option Component}
    (h : noIntField a Component.ram_speed) : ramSpeedBad a b = false := by
  cases a with
  | none => cases b <;> rfl
  | some m =>
    cases b with
    | none => rfl
    | some r => simp [ramSpeedBad, truthyInt, h m rfl]

theorem ramSpeedBad_false_right {a b : Option Component}
    (h : noIntField b Component.ram_speed) : ramSpeedBad a b = false := by
  cases a with
  | none => cases b <;> rfl
  | some m =>
    cases b with
    | none => rfl
    | some r => simp [ramSpeedBad, truthyInt, h r rfl]

theorem psuBad_false {a : Option Component}
    (h : noIntField a Component.psu_wattage) (t : Int) : psuBad a t = false := by
  cases a with
  | none => rfl
  | some p => simp [psuBad, truthyInt, h p rfl]

theorem gpuLengthBad_false_left {a b : Option Component}
    (h : noIntField a Component.case_gpu_max_length_mm) : gpuLengthBad a b = false := by
  cases a with
  | none => cases b <;> rfl
  | some k =>
    cases b with
    | none => rfl
    | some g => simp [gpuLengthBad, truthyInt, h k rfl]

theorem gpuLengthBad_false_right {a b : Option Component}
    (h : noIntField b Component.gpu_length_mm) : gpuLengthBad a b = false := by
  cases a with
  | none => cases b <;> rfl
  | some k =>
    cases b with
    | none => rfl
    | some g => simp [gpuLengthBad, truthyInt, h g rfl]

theorem coolerHeightBad_false_left {a b : Option Component}
    (h : noIntField a Component.case_cooler_max_height_mm) :
    coolerHeightBad a b = false := by
  cases a with
  | none => cases b <;> rfl
  | some k =>
    cases b with
    | none => rfl
    | some co => simp [coolerHeightBad, truthyInt, h k rfl]

theorem coolerHeightBad_false_right {a b : Option Component}
    (h : noIntField b Component.cooler_height_mm) : coolerHeightBad a b = false := by
  cases a with
  | none => cases b <;> rfl
  | some k =>
    cases b with
    | none => rfl
    | some co => simp [coolerHeightBad, truthyInt, h co rfl]

theorem coolerTdpBad_false_left {a b : Option Component}
    (h : noIntField a Component.cooler_tdp_rating) : coolerTdpBad a b = false := by
  cases a with
  | none => cases b <;> rfl
  | some co =>
    cases b with
    | none => rfl
    | some c => simp [coolerTdpBad, truthyInt, h co rfl]

theorem coolerTdpBad_false_right {a b : Option Component}
    (h : noIntField b Component.tdp) : coolerTdpBad a b = false := by
  cases a with
  | none => cases b <;> rfl
  | some co =>
    cases b with
    | none => rfl
    | some c => simp [coolerTdpBad, truthyInt, h c rfl]

/-! ### A message is absent from the output when its guard is false -/

theorem msgSocket_not_mem {s : Selection} (hb : socketBad s.cpu s.mb = false) :
    msgSocket ∉ (estimate_power_and_validate s).issues := by
  intro hmem
  rcases (mem_issues_iff s msgSocket).1 hmem with
    ⟨h, _⟩ | ⟨_, h⟩ | ⟨_, h⟩ | ⟨_, h⟩ | ⟨_, h⟩ | ⟨_, h⟩ | ⟨_, h⟩
  · simp [hb] at h
  · exact absurd h (by decide)
  · exact absurd h (by decide)
  · exact (msgPsu_ne (by decide) _) h.symm
  · exact absurd h (by decide)
  · exact absurd h (by decide)
  · exact absurd h (by decide)

theorem msgRamType_not_mem {s : Selection} (hb : ramTypeBad s.mb s.ram = false) :
    msgRamType ∉ (estimate_power_and_validate s).issues := by
  intro hmem
  rcases (mem_issues_iff s msgRamType).1 hmem with
    ⟨_, h⟩ | ⟨h, _⟩ | ⟨_, h⟩ | ⟨_, h⟩ | ⟨_, h⟩ | ⟨_, h⟩ | ⟨_, h⟩
  · exact absurd h (by decide)
  · simp [hb] at h
  · exact absurd h (by decide)
  · exact (msgPsu_ne (by decide) _) h.symm
  · exact absurd h (by decide)
  · exact absurd h (by decide)
  · exact absurd h (by decide)

theorem msgRamSpeed_not_mem {s : Selection} (hb : ramSpeedBad s.mb s.ram = false) :
    msgRamSpeed ∉ (estimate_power_and_validate s).issues := by
  intro hmem
  rcases (mem_issues_iff s msgRamSpeed).1 hmem with
    ⟨_, h⟩ | ⟨_, h⟩ | ⟨h, _⟩ | ⟨_, h⟩ | ⟨_, h⟩ | ⟨_, h⟩ | ⟨_, h⟩
  · exact absurd h (by decide)
  · exact absurd h (by decide)
  · simp [hb] at h
  · exact (msgPsu_ne (by decide) _) h.symm
  · exact absurd h (by decide)
  · exact absurd h (by decide)
  · exact absurd h (by decide)

theorem msgPsu_not_mem {s : Selection} (hb : psuBad s.psu (powerOf s) = false)
    (r : Int) : msgPsu r ∉ (estimate_power_and_validate s).issues := by
  intro hmem
  rcases (mem_issues_iff s (msgPsu r)).1 hmem with
    ⟨_, h⟩ | ⟨_, h⟩ | ⟨_, h⟩ | ⟨h, _⟩ | ⟨_, h⟩ | ⟨_, h⟩ | ⟨_, h⟩
  · exact (msgPsu_ne (by decide) r) h
  · exact (msgPsu_ne (by decide) r) h
  · exact (msgPsu_ne (by decide) r) h
  · simp [hb] at h
  · exact (msgPsu_ne (by decide) r) h
  · exact (msgPsu_ne (by decide) r) h
  · exact (msgPsu_ne (by decide) r) h

theorem msgGpuLength_not_mem {s : Selection}
    (hb : gpuLengthBad s.pcCase s.gpu = false) :
    msgGpuLength ∉ (estimate_power_and_validate s).issues := by
  intro hmem
  rcases (mem_issues_iff s msgGpuLength).1 hmem with
    ⟨_, h⟩ | ⟨_, h⟩ | ⟨_, h⟩ | ⟨_, h⟩ | ⟨h, _⟩ | ⟨_, h⟩ | ⟨_, h⟩
  · exact absurd h (by decide)
  · exact absurd h (by decide)
  · exact absurd h (by decide)
  · exact (msgPsu_ne (by decide) _) h.symm
  · simp [hb] at h
  · exact absurd h (by decide)
  · exact absurd h (by decide)

theorem msgCoolerHeight_not_mem {s : Selection}
    (hb : coolerHeightBad s.pcCase s.cooler = false) :
    msgCoolerHeight ∉ (estimate_power_and_validate s).issues := by
  intro hmem
  rcases (mem_issues_iff s msgCoolerHeight).1 hmem with
    ⟨_, h⟩ | ⟨_, h⟩ | ⟨_, h⟩ | ⟨_, h⟩ | ⟨_, h⟩ | ⟨h, _⟩ | ⟨_, h⟩
  · exact absurd h (by decide)
  · exact absurd h (by decide)
  · exact absurd h (by decide)
  · exact (msgPsu_ne (by decide) _) h.symm
  · exact absurd h (by decide)
  · simp [hb] at h
  · exact absurd h (by decide)

theorem msgCoolerTdp_not_mem {s : Selection}
    (hb : coolerTdpBad s.cooler s.cpu = false) :
    msgCoolerTdp ∉ (estimate_power_and_validate s).issues := by
  intro hmem
  rcases (mem_issues_iff s msgCoolerTdp).1 hmem with
    ⟨_, h⟩ | ⟨_, h⟩ | ⟨_, h⟩ | ⟨_, h⟩ | ⟨_, h⟩ | ⟨_, h⟩ | ⟨h, _⟩
  · exact absurd h (by decide)
  · exact absurd h (by decide)
  · exact absurd h (by decide)
  · exact (msgPsu_ne (by decide) _) h.symm
  · exact absurd h (by decide)
  · exact absurd h (by decide)
  · simp [hb] at h

/-- Claim C2 counterexample: with CPU tdp 65 and a PSU whose wattage field
is present but zero, the requirement 210 exceeds the wattage 0, yet no PSU
issue is produced, so the claim as stated (field merely present) fails. -/
theorem psu_rule_ce :
    (0:Int) < requiredHeadroom
        ((estimate_power_and_validate
          { cpu := some { tdp := some 65 },
            psu := some { psu_wattage := some 0 } }).estimated_power_w) ∧
      msgPsu (requiredHeadroom
        ((estimate_power_and_validate
          { cpu := some { tdp := some 65 },
            psu := some { psu_wattage := some 0 } }).estimated_power_w)) ∉
        (estimate_power_and_validate
          { cpu := some { tdp := some 65 },
            psu := some { psu_wattage := some 0 } }).issues := by
  decide

/-- Claim C2 (amended): when a PSU is present with a present and nonzero
wattage, the PSU issue with the computed requirement appears exactly when
the wattage is below the requirement, where the requirement is the
truncation toward zero of 1.5 times the estimated power (equal to the
floor whenever the power is non-negative). -/
theorem psu_rule_iff (s : Selection) (p : Component) (hp : s.psu = some p)
    (w : Int) (hw : p.psu_wattage = some w) (h0 : w ≠ 0) :
    msgPsu (requiredHeadroom ((estimate_power_and_validate s).estimated_power_w)) ∈
        (estimate_power_and_validate s).issues ↔
      w < requiredHeadroom ((estimate_power_and_validate s).estimated_power_w) := by
  rw [power_decomp, mem_issues_iff]
  constructor
  · rintro (⟨_, h⟩ | ⟨_, h⟩ | ⟨_, h⟩ | ⟨hb, _⟩ | ⟨_, h⟩ | ⟨_, h⟩ | ⟨_, h⟩)
    · exact absurd h (msgPsu_ne_all _).1
    · exact absurd h (msgPsu_ne_all _).2.1
    · exact absurd h (msgPsu_ne_all _).2.2.1
    · rw [hp] at hb
      simp only [psuBad, hw, truthyInt, intOf, Option.getD_some, Bool.and_eq_true,
        bne_iff_ne, ne_eq, decide_eq_true_eq] at hb
      exact hb.2
    · exact absurd h (msgPsu_ne_all _).2.2.2.1
    · exact absurd h (msgPsu_ne_all _).2.2.2.2.1
    · exact absurd h (msgPsu_ne_all _).2.2.2.2.2
  · intro hlt
    refine Or.inr (Or.inr (Or.inr (Or.inl ⟨?_, rfl⟩)))
    rw [hp]
    simp only [psuBad, hw, truthyInt, intOf, Option.getD_some, Bool.and_eq_true,
      bne_iff_ne, ne_eq, decide_eq_true_eq]
    exact ⟨h0, hlt⟩

/-- Claim C2 witness: the scenario with CPU tdp 65, GPU tdp 230 and a
300 W PSU yields power 370, requirement 555 and the PSU issue. -/
theorem psu_rule_iff_witness :
    (estimate_power_and_validate
        { cpu := some { tdp := some 65 }, gpu := some { tdp := some 230 },
          psu := some { psu_wattage := some 300 } }).estimated_power_w = 370 ∧
      requiredHeadroom 370 = 555 ∧
      msgPsu 555 ∈ (estimate_power_and_validate
        { cpu := some { tdp := some 65 }, gpu := some { tdp := some 230 },
          psu := some { psu_wattage := some 300 } }).issues := by
  refine ⟨by decide, by decide, ?_⟩
  exact (psu_rule_iff
    { cpu := some { tdp := some 65 }, gpu := some { tdp := some 230 },
      psu := some { psu_wattage := some 300 } }
    { psu_wattage := some 300 } rfl 300 rfl (by decide)).mpr (by decide)

/-- Claim C5 counterexample: a motherboard whose ram speed field is
present but zero never yields the RAM speed issue, even for RAM speed
3200 which exceeds 0, so the claim as stated (field merely present)
fails. -/
theorem ram_speed_ce :
    (3200:Int) > 0 ∧
      msgRamSpeed ∉ (estimate_power_and_validate
        { mb := some { ram_speed := some 0 },
          ram := some { ram_speed := some 3200 } }).issues := by
  decide

/-- Claim C5 (amended): when Motherboard and RAM are both present and both
ram speed fields are present and nonzero, the RAM speed issue appears
exactly when the RAM speed exceeds the motherboard maximum. -/
theorem ram_speed_iff (s : Selection) (m r : Component)
    (hm : s.mb = some m) (hr : s.ram = some r) (ms rs : Int)
    (hms : m.ram_speed = some ms) (hrs : r.ram_speed = some rs)
    (hms0 : ms ≠ 0) (hrs0 : rs ≠ 0) :
    msgRamSpeed ∈ (estimate_power_and_validate s).issues ↔ rs > ms := by
  rw [mem_issues_iff]
  constructor
  · rintro (⟨_, h⟩ | ⟨_, h⟩ | ⟨hb, _⟩ | ⟨_, h⟩ | ⟨_, h⟩ | ⟨_, h⟩ | ⟨_, h⟩)
    · exact absurd h (by decide)
    · exact absurd h (by decide)
    · rw [hm, hr] at hb
      simp only [ramSpeedBad, hms, hrs, truthyInt, intOf, Option.getD_some,
        Bool.and_eq_true, bne_iff_ne, ne_eq, decide_eq_true_eq] at hb
      exact hb.2
    · exact absurd h.symm (msgPsu_ne_all _).2.2.1
    · exact absurd h (by decide)
    · exact absurd h (by decide)
    · exact absurd h (by decide)
  · intro hgt
    refine Or.inr (Or.inr (Or.inl ⟨?_, rfl⟩))
    rw [hm, hr]
    simp only [ramSpeedBad, hms, hrs, truthyInt, intOf, Option.getD_some,
      Bool.and_eq_true, bne_iff_ne, ne_eq, decide_eq_true_eq]
    exact ⟨⟨hms0, hrs0⟩, hgt⟩

/-- Claim C5 witness: RAM at 5600 on a motherboard rated 3200 yields the
RAM speed issue. -/
theorem ram_speed_iff_witness :
    (5600:Int) > 3200 ∧
      msgRamSpeed ∈ (estimate_power_and_validate
        { mb := some { ram_speed := some 3200 },
          ram := some { ram_speed := some 5600 } }).issues := by
  refine ⟨by decide, ?_⟩
  exact (ram_speed_iff
    { mb := some { ram_speed := some 3200 }, ram := some { ram_speed := some 5600 } }
    { ram_speed := some 3200 } { ram_speed := some 5600 } rfl rfl 3200 5600 rfl rfl
    (by decide) (by decide)).mpr (by decide)

/-- Claim C3: any rule whose specific field is absent on either operand
slot (or whose operand slot is empty) contributes no issue, whatever the
other fields hold. -/
theorem missing_field_skips_rule (s : Selection) :
    ((noStrField s.cpu Component.socket ∨ noStrField s.mb Component.socket) →
        msgSocket ∉ (estimate_power_and_validate s).issues) ∧
    ((noStrField s.mb Component.ram_type ∨ noStrField s.ram Component.ram_type) →
        msgRamType ∉ (estimate_power_and_validate s).issues) ∧
    ((noIntField s.mb Component.ram_speed ∨ noIntField s.ram Component.ram_speed) →
        msgRamSpeed ∉ (estimate_power_and_validate s).issues) ∧
    (noIntField s.psu Component.psu_wattage →
        ∀ r, msgPsu r ∉ (estimate_power_and_validate s).issues) ∧
    ((noIntField s.pcCase Component.case_gpu_max_length_mm ∨
        noIntField s.gpu Component.gpu_length_mm) →
        msgGpuLength ∉ (estimate_power_and_validate s).issues) ∧
    ((noIntField s.pcCase Component.case_cooler_max_height_mm ∨
        noIntField s.cooler Component.cooler_height_mm) →
        msgCoolerHeight ∉ (estimate_power_and_validate s).issues) ∧
    ((noIntField s.cooler Component.cooler_tdp_rating ∨
        noIntField s.cpu Component.tdp) →
        msgCoolerTdp ∉ (estimate_power_and_validate s).issues) := by
  refine ⟨fun h => msgSocket_not_mem ?_, fun h => msgRamType_not_mem ?_,
    fun h => msgRamSpeed_not_mem ?_, fun h => msgPsu_not_mem (psuBad_false h _),
    fun h => msgGpuLength_not_mem ?_, fun h => msgCoolerHeight_not_mem ?_,
    fun h => msgCoolerTdp_not_mem ?_⟩
  · rcases h with h | h
    · exact socketBad_false_left h
    · exact socketBad_false_right h
  · rcases h with h | h
    · exact ramTypeBad_false_left h
    · exact ramTypeBad_false_right h
  · rcases h with h | h
    · exact ramSpeedBad_false_left h
    · exact ramSpeedBad_false_right h
  · rcases h with h | h
    · exact gpuLengthBad_false_left h
    · exact gpuLengthBad_false_right h
  · rcases h with h | h
    · exact coolerHeightBad_false_left h
    · exact coolerHeightBad_false_right h
  · rcases h with h | h
    · exact coolerTdpBad_false_left h
    · exact coolerTdpBad_false_right h

/-- Claim C3 witness: with all eight slots filled by components carrying
no rule fields at all, every rule is skipped. -/
theorem missing_field_skips_rule_witness :
    msgSocket ∉ (estimate_power_and_validate
      { cpu := some {}, gpu := some {}, mb := some {}, ram := some {},
        storage := some {}, psu := some {}, pcCase := some {},
        cooler := some {} }).issues ∧
    msgRamType ∉ (estimate_power_and_validate
      { cpu := some {}, gpu := some {}, mb := some {}, ram := some {},
        storage := some {}, psu := some {}, pcCase := some {},
        cooler := some {} }).issues ∧
    msgRamSpeed ∉ (estimate_power_and_validate
      { cpu := some {}, gpu := some {}, mb := some {}, ram := some {},
        storage := some {}, psu := some {}, pcCase := some {},
        cooler := some {} }).issues ∧
    msgPsu 210 ∉ (estimate_power_and_validate
      { cpu := some {}, gpu := some {}, mb := some {}, ram := some {},
        storage := some {}, psu := some {}, pcCase := some {},
        cooler := some {} }).issues ∧
    msgGpuLength ∉ (estimate_power_and_validate
      { cpu := some {}, gpu := some {}, mb := some {}, ram := some {},
        storage := some {}, psu := some {}, pcCase := some {},
        cooler := some {} }).issues ∧
    msgCoolerHeight ∉ (estimate_power_and_validate
      { cpu := some {}, gpu := some {}, mb := some {}, ram := some {},
        storage := some {}, psu := some {}, pcCase := some {},
        cooler := some {} }).issues ∧
    msgCoolerTdp ∉ (estimate_power_and_validate
      { cpu := some {}, gpu := some {}, mb := some {}, ram := some {},
        storage := some {}, psu := some {}, pcCase := some {},
        cooler := some {} }).issues := by
  have h := missing_field_skips_rule
    { cpu := some {}, gpu := some {}, mb := some {}, ram := some {},
      storage := some {}, psu := some {}, pcCase := some {}, cooler := some {} }
  exact ⟨h.1 (Or.inl fun x hx => by cases hx; rfl),
    h.2.1 (Or.inl fun x hx => by cases hx; rfl),
    h.2.2.1 (Or.inl fun x hx => by cases hx; rfl),
    h.2.2.2.1 (fun x hx => by cases hx; rfl) 210,
    h.2.2.2.2.1 (Or.inl fun x hx => by cases hx; rfl),
    h.2.2.2.2.2.1 (Or.inl fun x hx => by cases hx; rfl),
    h.2.2.2.2.2.2 (Or.inl fun x hx => by cases hx; rfl)⟩

/-- Claim C9: the evaluator is a total function: every selection, however
partial, yields a result record, and an empty slot silently disables the
rules that mention it rather than producing an error. -/
theorem evaluator_total_and_skips (s : Selection) :
    ∃ res : CompatibilityResult, estimate_power_and_validate s = res ∧
      (s.cpu = none → msgSocket ∉ res.issues ∧ msgCoolerTdp ∉ res.issues) ∧
      (s.gpu = none → msgGpuLength ∉ res.issues) ∧
      (s.mb = none → msgSocket ∉ res.issues ∧ msgRamType ∉ res.issues ∧
        msgRamSpeed ∉ res.issues) ∧
      (s.ram = none → msgRamType ∉ res.issues ∧ msgRamSpeed ∉ res.issues) ∧
      (s.psu = none → ∀ r, msgPsu r ∉ res.issues) ∧
      (s.pcCase = none → msgGpuLength ∉ res.issues ∧ msgCoolerHeight ∉ res.issues) ∧
      (s.cooler = none → msgCoolerHeight ∉ res.issues ∧ msgCoolerTdp ∉ res.issues) := by
  refine ⟨estimate_power_and_validate s, rfl, ?_, ?_, ?_, ?_, ?_, ?_, ?_⟩
  · intro h
    exact ⟨msgSocket_not_mem (by rw [h]; exact socketBad_false_left (noStrField_none _)),
      msgCoolerTdp_not_mem (by rw [h]; exact coolerTdpBad_false_right (noIntField_none _))⟩
  · intro h
    exact msgGpuLength_not_mem (by rw [h]; exact gpuLengthBad_false_right (noIntField_none _))
  · intro h
    exact ⟨msgSocket_not_mem (by rw [h]; exact socketBad_false_right (noStrField_none _)),
      msgRamType_not_mem (by rw [h]; exact ramTypeBad_false_left (noStrField_none _)),
      msgRamSpeed_not_mem (by rw [h]; exact ramSpeedBad_false_left (noIntField_none _))⟩
  · intro h
    exact ⟨msgRamType_not_mem (by rw [h]; exact ramTypeBad_false_right (noStrField_none _)),
      msgRamSpeed_not_mem (by rw [h]; exact ramSpeedBad_false_right (noIntField_none _))⟩
  · intro h
    exact msgPsu_not_mem (by rw [h]; exact psuBad_false (noIntField_none _) _)
  · intro h
    exact ⟨msgGpuLength_not_mem (by rw [h]; exact gpuLengthBad_false_left (noIntField_none _)),
      msgCoolerHeight_not_mem (by rw [h]; exact coolerHeightBad_false_left (noIntField_none _))⟩
  · intro h
    exact ⟨msgCoolerHeight_not_mem (by rw [h]; exact coolerHeightBad_false_right (noIntField_none _)),
      msgCoolerTdp_not_mem (by rw [h]; exact coolerTdpBad_false_left (noIntField_none _))⟩

/-- Claim C9 witness: instantiation at the selection holding only a CPU:
the result exists and the rules naming the missing slots are skipped. -/
theorem evaluator_total_and_skips_witness :
    msgSocket ∉ (estimate_power_and_validate { cpu := some { tdp := some 65 } }).issues ∧
      msgPsu 210 ∉ (estimate_power_and_validate { cpu := some { tdp := some 65 } }).issues ∧
      msgGpuLength ∉ (estimate_power_and_validate { cpu := some { tdp := some 65 } }).issues := by
  obtain ⟨res, hres, _, h2, h3, _, h5, _, _⟩ :=
    evaluator_total_and_skips { cpu := some { tdp := some 65 } }
  subst hres
  exact ⟨(h3 rfl).1, h5 rfl 210, h2 rfl⟩

/-- Two selections whose per-rule contributions and power totals agree
evaluate to the same result. -/
theorem eval_congr {s t : Selection}
    (hpw : powerOf s = powerOf t)
    (h1 : socketIssue s.cpu s.mb = socketIssue t.cpu t.mb)
    (h2 : ramTypeIssue s.mb s.ram = ramTypeIssue t.mb t.ram)
    (h3 : ramSpeedIssue s.mb s.ram = ramSpeedIssue t.mb t.ram)
    (h4 : psuIssue s.psu (powerOf s) = psuIssue t.psu (powerOf t))
    (h5 : gpuLengthIssue s.pcCase s.gpu = gpuLengthIssue t.pcCase t.gpu)
    (h6 : coolerHeightIssue s.pcCase s.cooler = coolerHeightIssue t.pcCase t.cooler)
    (h7 : coolerTdpIssue s.cooler s.cpu = coolerTdpIssue t.cooler t.cpu) :
    estimate_power_and_validate s = estimate_power_and_validate t := by
  rw [eval_eq, eval_eq, h1, h2, h3, h4, h5, h6, h7, hpw]

/-- Claim C10: a present rule field holding the number zero (or the empty
string, for the socket and ram type fields) behaves exactly as if the
field were absent: for every one of the fourteen slot and field pairs the
evaluator reads through a truthiness gate, the entire evaluation result is
unchanged when the field is removed. -/
theorem zero_field_as_absent (s : Selection) :
    (∀ c, s.cpu = some c → c.tdp = some 0 →
        estimate_power_and_validate s =
          estimate_power_and_validate
            { s with cpu := some { c with tdp := none } }) ∧
    (∀ g, s.gpu = some g → g.tdp = some 0 →
        estimate_power_and_validate s =
          estimate_power_and_validate
            { s with gpu := some { g with tdp := none } }) ∧
    (∀ c, s.cpu = some c → c.socket = some "" →
        estimate_power_and_validate s =
          estimate_power_and_validate
            { s with cpu := some { c with socket := none } }) ∧
    (∀ m, s.mb = some m → m.socket = some "" →
        estimate_power_and_validate s =
          estimate_power_and_validate
            { s with mb := some { m with socket := none } }) ∧
    (∀ m, s.mb = some m → m.ram_type = some "" →
        estimate_power_and_validate s =
          estimate_power_and_validate
            { s with mb := some { m with ram_type := none } }) ∧
    (∀ r, s.ram = some r → r.ram_type = some "" →
        estimate_power_and_validate s =
          estimate_power_and_validate
            { s with ram := some { r with ram_type := none } }) ∧
    (∀ m, s.mb = some m → m.ram_speed = some 0 →
        estimate_power_and_validate s =
          estimate_power_and_validate
            { s with mb := some { m with ram_speed := none } }) ∧
    (∀ r, s.ram = some r → r.ram_speed = some 0 →
        estimate_power_and_validate s =
          estimate_power_and_validate
            { s with ram := some { r with ram_speed := none } }) ∧
    (∀ p, s.psu = some p → p.psu_wattage = some 0 →
        estimate_power_and_validate s =
          estimate_power_and_validate
            { s with psu := some { p with psu_wattage := none } }) ∧
    (∀ k, s.pcCase = some k → k.case_gpu_max_length_mm = some 0 →
        estimate_power_and_validate s =
          estimate_power_and_validate
            { s with pcCase := some { k with case_gpu_max_length_mm := none } }) ∧
    (∀ g, s.gpu = some g → g.gpu_length_mm = some 0 →
        estimate_power_and_validate s =
          estimate_power_and_validate
            { s with gpu := some { g with gpu_length_mm := none } }) ∧
    (∀ k, s.pcCase = some k → k.case_cooler_max_height_mm = some 0 →
        estimate_power_and_validate s =
          estimate_power_and_validate
            { s with pcCase := some { k with case_cooler_max_height_mm := none } }) ∧
    (∀ co, s.cooler = some co → co.cooler_height_mm = some 0 →
        estimate_power_and_validate s =
          estimate_power_and_validate
            { s with cooler := some { co with cooler_height_mm := none } }) ∧
    (∀ co, s.cooler = some co → co.cooler_tdp_rating = some 0 →
        estimate_power_and_validate s =
          estimate_power_and_validate
            { s with cooler := some { co with cooler_tdp_rating := none } }) := by
  obtain ⟨c0, g0, m0, r0, st0, p0, k0, co0⟩ := s
  refine ⟨?_, ?_, ?_, ?_, ?_, ?_, ?_, ?_, ?_, ?_, ?_, ?_, ?_, ?_⟩
  · intro c hc h0
    have hc2 : c0 = some c := hc
    subst hc2
    refine eval_congr ?_ ?_ rfl rfl ?_ rfl rfl ?_
    · simp [powerOf, tdpAdd, truthyInt, h0]
    · cases m0 <;> rfl
    · cases p0 with
      | none => rfl
      | some p => simp [psuIssue, psuBad, truthyInt, powerOf, tdpAdd, h0]
    · cases co0 with
      | none => rfl
      | some co => simp [coolerTdpIssue, coolerTdpBad, truthyInt, h0]
  · intro g hg h0
    have hg2 : g0 = some g := hg
    subst hg2
    refine eval_congr ?_ rfl rfl rfl ?_ ?_ rfl rfl
    · simp [powerOf, tdpAdd, truthyInt, h0]
    · cases p0 with
      | none => rfl
      | some p => simp [psuIssue, psuBad, truthyInt, powerOf, tdpAdd, h0]
    · cases k0 <;> rfl
  · intro c hc h0
    have hc2 : c0 = some c := hc
    subst hc2
    refine eval_congr rfl ?_ rfl rfl rfl rfl rfl ?_
    · cases m0 with
      | none => rfl
      | some m => simp [socketIssue, socketBad, truthyStr, h0]
    · cases co0 <;> rfl
  · intro m hm h0
    have hm2 : m0 = some m := hm
    subst hm2
    refine eval_congr rfl ?_ ?_ ?_ rfl rfl rfl rfl
    · cases c0 with
      | none => rfl
      | some c => simp [socketIssue, socketBad, truthyStr, h0]
    · cases r0 <;> rfl
    · cases r0 <;> rfl
  · intro m hm h0
    have hm2 : m0 = some m := hm
    subst hm2
    refine eval_congr rfl ?_ ?_ ?_ rfl rfl rfl rfl
    · cases c0 <;> rfl
    · cases r0 with
      | none => rfl
      | some r => simp [ramTypeIssue, ramTypeBad, truthyStr, h0]
    · cases r0 <;> rfl
  · intro r hr h0
    have hr2 : r0 = some r := hr
    subst hr2
    refine eval_congr rfl rfl ?_ ?_ rfl rfl rfl rfl
    · cases m0 with
      | none => rfl
      | some m => simp [ramTypeIssue, ramTypeBad, truthyStr, h0]
    · cases m0 <;> rfl
  · intro m hm h0
    have hm2 : m0 = some m := hm
    subst hm2
    refine eval_congr rfl ?_ ?_ ?_ rfl rfl rfl rfl
    · cases c0 <;> rfl
    · cases r0 <;> rfl
    · cases r0 with
      | none => rfl
      | some r => simp [ramSpeedIssue, ramSpeedBad, truthyInt, h0]
  · intro r hr h0
    have hr2 : r0 = some r := hr
    subst hr2
    refine eval_congr rfl rfl ?_ ?_ rfl rfl rfl rfl
    · cases m0 <;> rfl
    · cases m0 with
      | none => rfl
      | some m => simp [ramSpeedIssue, ramSpeedBad, truthyInt, h0]
  · intro p hp h0
    have hp2 : p0 = some p := hp
    subst hp2
    refine eval_congr rfl rfl rfl rfl ?_ rfl rfl rfl
    simp [psuIssue, psuBad, truthyInt, h0, powerOf]
  · intro k hk h0
    have hk2 : k0 = some k := hk
    subst hk2
    refine eval_congr rfl rfl rfl rfl rfl ?_ ?_ rfl
    · cases g0 with
      | none => rfl
      | some g => simp [gpuLengthIssue, gpuLengthBad, truthyInt, h0]
    · cases co0 <;> rfl
  · intro g hg h0
    have hg2 : g0 = some g := hg
    subst hg2
    refine eval_congr rfl rfl rfl rfl rfl ?_ rfl rfl
    cases k0 with
    | none => rfl
    | some k => simp [gpuLengthIssue, gpuLengthBad, truthyInt, h0]
  · intro k hk h0
    have hk2 : k0 = some k := hk
    subst hk2
    refine eval_congr rfl rfl rfl rfl rfl ?_ ?_ rfl
    · cases g0 <;> rfl
    · cases co0 with
      | none => rfl
      | some co => simp [coolerHeightIssue, coolerHeightBad, truthyInt, h0]
  · intro co hco h0
    have hco2 : co0 = some co := hco
    subst hco2
    refine eval_congr rfl rfl rfl rfl rfl rfl ?_ ?_
    · cases k0 with
      | none => rfl
      | some k => simp [coolerHeightIssue, coolerHeightBad, truthyInt, h0]
    · cases c0 <;> rfl
  · intro co hco h0
    have hco2 : co0 = some co := hco
    subst hco2
    refine eval_congr rfl rfl rfl rfl rfl rfl ?_ ?_
    · cases k0 <;> rfl
    · cases c0 with
      | none => rfl
      | some c => simp [coolerTdpIssue, coolerTdpBad, truthyInt, h0]

/-- Claim C10 witness: for each of the fourteen gated fields, a concrete
build in which zeroing the field and removing it give identical
results. -/
theorem zero_field_as_absent_witness :
    (estimate_power_and_validate
        { cpu := some { tdp := some 0 }, cooler := some { cooler_tdp_rating := some 150 } } =
      estimate_power_and_validate
        { ({ cpu := some { tdp := some 0 }, cooler := some { cooler_tdp_rating := some 150 } } : Selection) with
          cpu := some { ({ tdp := some 0 } : Component) with tdp := none } }) ∧
    (estimate_power_and_validate
        { gpu := some { tdp := some 0 }, psu := some { psu_wattage := some 100 } } =
      estimate_power_and_validate
        { ({ gpu := some { tdp := some 0 }, psu := some { psu_wattage := some 100 } } : Selection) with
          gpu := some { ({ tdp := some 0 } : Component) with tdp := none } }) ∧
    (estimate_power_and_validate
        { cpu := some { socket := some "" }, mb := some { socket := some "AM4" } } =
      estimate_power_and_validate
        { ({ cpu := some { socket := some "" }, mb := some { socket := some "AM4" } } : Selection) with
          cpu := some { ({ socket := some "" } : Component) with socket := none } }) ∧
    (estimate_power_and_validate
        { cpu := some { socket := some "AM4" }, mb := some { socket := some "" } } =
      estimate_power_and_validate
        { ({ cpu := some { socket := some "AM4" }, mb := some { socket := some "" } } : Selection) with
          mb := some { ({ socket := some "" } : Component) with socket := none } }) ∧
    (estimate_power_and_validate
        { mb := some { ram_type := some "" }, ram := some { ram_type := some "DDR4" } } =
      estimate_power_and_validate
        { ({ mb := some { ram_type := some "" }, ram := some { ram_type := some "DDR4" } } : Selection) with
          mb := some { ({ ram_type := some "" } : Component) with ram_type := none } }) ∧
    (estimate_power_and_validate
        { mb := some { ram_type := some "DDR4" }, ram := some { ram_type := some "" } } =
      estimate_power_and_validate
        { ({ mb := some { ram_type := some "DDR4" }, ram := some { ram_type := some "" } } : Selection) with
          ram := some { ({ ram_type := some "" } : Component) with ram_type := none } }) ∧
    (estimate_power_and_validate
        { mb := some { ram_speed := some 0 }, ram := some { ram_speed := some 3200 } } =
      estimate_power_and_validate
        { ({ mb := some { ram_speed := some 0 }, ram := some { ram_speed := some 3200 } } : Selection) with
          mb := some { ({ ram_speed := some 0 } : Component) with ram_speed := none } }) ∧
    (estimate_power_and_validate
        { mb := some { ram_speed := some 3200 }, ram := some { ram_speed := some 0 } } =
      estimate_power_and_validate
        { ({ mb := some { ram_speed := some 3200 }, ram := some { ram_speed := some 0 } } : Selection) with
          ram := some { ({ ram_speed := some 0 } : Component) with ram_speed := none } }) ∧
    (estimate_power_and_validate
        { cpu := some { tdp := some 65 }, psu := some { psu_wattage := some 0 } } =
      estimate_power_and_validate
        { ({ cpu := some { tdp := some 65 }, psu := some { psu_wattage := some 0 } } : Selection) with
          psu := some { ({ psu_wattage := some 0 } : Component) with psu_wattage := none } }) ∧
    (estimate_power_and_validate
        { pcCase := some { case_gpu_max_length_mm := some 0 }, gpu := some { gpu_length_mm := some 300 } } =
      estimate_power_and_validate
        { ({ pcCase := some { case_gpu_max_length_mm := some 0 }, gpu := some { gpu_length_mm := some 300 } } : Selection) with
          pcCase := some { ({ case_gpu_max_length_mm := some 0 } : Component) with case_gpu_max_length_mm := none } }) ∧
    (estimate_power_and_validate
        { pcCase := some { case_gpu_max_length_mm := some 280 }, gpu := some { gpu_length_mm := some 0 } } =
      estimate_power_and_validate
        { ({ pcCase := some { case_gpu_max_length_mm := some 280 }, gpu := some { gpu_length_mm := some 0 } } : Selection) with
          gpu := some { ({ gpu_length_mm := some 0 } : Component) with gpu_length_mm := none } }) ∧
    (estimate_power_and_validate
        { pcCase := some { case_cooler_max_height_mm := some 0 }, cooler := some { cooler_height_mm := some 165 } } =
      estimate_power_and_validate
        { ({ pcCase := some { case_cooler_max_height_mm := some 0 }, cooler := some { cooler_height_mm := some 165 } } : Selection) with
          pcCase := some { ({ case_cooler_max_height_mm := some 0 } : Component) with case_cooler_max_height_mm := none } }) ∧
    (estimate_power_and_validate
        { pcCase := some { case_cooler_max_height_mm := some 160 }, cooler := some { cooler_height_mm := some 0 } } =
      estimate_power_and_validate
        { ({ pcCase := some { case_cooler_max_height_mm := some 160 }, cooler := some { cooler_height_mm := some 0 } } : Selection) with
          cooler := some { ({ cooler_height_mm := some 0 } : Component) with cooler_height_mm := none } }) ∧
    (estimate_power_and_validate
        { cpu := some { tdp := some 150 }, cooler := some { cooler_tdp_rating := some 0 } } =
      estimate_power_and_validate
        { ({ cpu := some { tdp := some 150 }, cooler := some { cooler_tdp_rating := some 0 } } : Selection) with
          cooler := some { ({ cooler_tdp_rating := some 0 } : Component) with cooler_tdp_rating := none } }) := by
  exact ⟨
    (zero_field_as_absent _).1 _ rfl rfl,
    (zero_field_as_absent _).2.1 _ rfl rfl,
    (zero_field_as_absent _).2.2.1 _ rfl rfl,
    (zero_field_as_absent _).2.2.2.1 _ rfl rfl,
    (zero_field_as_absent _).2.2.2.2.1 _ rfl rfl,
    (zero_field_as_absent _).2.2.2.2.2.1 _ rfl rfl,
    (zero_field_as_absent _).2.2.2.2.2.2.1 _ rfl rfl,
    (zero_field_as_absent _).2.2.2.2.2.2.2.1 _ rfl rfl,
    (zero_field_as_absent _).2.2.2.2.2.2.2.2.1 _ rfl rfl,
    (zero_field_as_absent _).2.2.2.2.2.2.2.2.2.1 _ rfl rfl,
    (zero_field_as_absent _).2.2.2.2.2.2.2.2.2.2.1 _ rfl rfl,
    (zero_field_as_absent _).2.2.2.2.2.2.2.2.2.2.2.1 _ rfl rfl,
    (zero_field_as_absent _).2.2.2.2.2.2.2.2.2.2.2.2.1 _ rfl rfl,
    (zero_field_as_absent _).2.2.2.2.2.2.2.2.2.2.2.2.2 _ rfl rfl⟩
